import Mathlib

/-!
Shallow embedding of `gazebo_ros_actor_command.cpp` (gazebo-ros-actor-plugin).

The plugin is a per-tick motion controller for a simulated actor.  We model the
controller state (`State`), the configuration read at load time (`Params`), the
three ROS callbacks (`VelCallback`, `PathCallback`, `AbortCallback`) and the
per-tick update (`OnUpdate`), translated line by line from the C++ source.

Modelling conventions:
* C++ `double` is modelled by `ℝ`.
* `ignition::math::Angle::Normalize` is `atan2(sin v, cos v)` in the ignition
  sources; `atan2 y x` is modelled by `Complex.arg ⟨x, y⟩`, which lies in
  `(-π, π]` exactly like the C `atan2`.
* Pose rotations are stored by the code as quaternions and read back each tick
  through `Rot().Euler().Z()`; for the quaternions this code writes
  (roll = default_rotation, pitch = 0, yaw = v) that round trip returns the
  principal value of the yaw, i.e. `normalizeAngle v`.  The state stores the
  yaw the code wrote; every read site applies `normalizeAngle`.
* IEEE division `a / b` with `b = 0` produces an infinity or NaN, not a real
  number; it is modelled by `ieeeDiv`, returning `none` in that case.  The only
  unguarded division in the source is `yaw.Radian() / dt` (line 293).
-/

namespace ActorCmd

/-- Planar Euclidean norm, `ignition::math::Vector2d::Length`. -/
noncomputable def vlen (v : ℝ × ℝ) : ℝ := Real.sqrt (v.1 ^ 2 + v.2 ^ 2)

/-- C `atan2(y, x)`, modelled as the principal argument of `x + y i`. -/
noncomputable def atan2 (y x : ℝ) : ℝ := Complex.arg ⟨x, y⟩

/-- The ignition `Angle::Normalize`: `value = atan2(sin(value), cos(value))`,
the representative of the angle in `(-π, π]`. -/
noncomputable def normalizeAngle (a : ℝ) : ℝ := atan2 (Real.sin a) (Real.cos a)

/-- IEEE division: `none` models the infinity/NaN produced when the divisor is
zero (C++ `a / b` on doubles). -/
noncomputable def ieeeDiv (a b : ℝ) : Option ℝ :=
  if b = 0 then none else some (a / b)

/-- A waypoint `(x, y, yaw)` as stored in `target_poses_`
(`ignition::math::Vector3d`). -/
abbrev Waypoint : Type := ℝ × ℝ × ℝ

/-- Configuration read in `Load` from the SDF (defaults in lines 43-52). -/
structure Params where
  followMode : String
  linTolerance : ℝ
  linVelocity : ℝ
  angTolerance : ℝ
  angVelocity : ℝ
  animationFactor : ℝ
  defaultRotation : ℝ

/-- A `geometry_msgs::Twist` message (six scalar fields). -/
structure TwistMsg where
  linX : ℝ
  linY : ℝ
  linZ : ℝ
  angX : ℝ
  angY : ℝ
  angZ : ℝ

/-- One `geometry_msgs::PoseStamped` entry of a `nav_msgs::Path` message:
planar position and orientation quaternion. -/
structure PoseMsg where
  px : ℝ
  py : ℝ
  pz : ℝ
  qx : ℝ
  qy : ℝ
  qz : ℝ
  qw : ℝ

/-- The mutable controller state of `GazeboRosActorCommand` together with the
actor pose it reads and writes through the world. -/
structure State where
  posX : ℝ
  posY : ℝ
  /-- Yaw written into the actor world pose (read back via `Euler().Z()`). -/
  yaw : ℝ
  targetPoses : List Waypoint
  targetPose : Waypoint
  idx : ℕ
  abort : Bool
  /-- `cmd_queue_`: FIFO of `(linear.x, angular.z)` pairs. -/
  cmdQueue : List (ℝ × ℝ)
  targetVelLin : ℝ
  targetVelAng : ℝ
  scriptTime : ℝ
  animType : String
  lastUpdate : ℝ

/-- The published `nav_msgs::Odometry` fields the plugin fills in. -/
structure Odom where
  posX : ℝ
  posY : ℝ
  /-- Yaw passed to `setRPY(0, 0, rpy.Z() - default_rotation_)`. -/
  orientYaw : ℝ
  twistLinX : ℝ
  twistLinY : ℝ
  twistAngZ : Option ℝ

/-- State after `Reset` (lines 150-176) for an actor whose world pose has
planar position `(x, y)` and yaw `yaw`: the single waypoint is the current
pose, the index is 0 and the custom trajectory starts as "standing". -/
def initState (x y yaw : ℝ) : State :=
  { posX := x
    posY := y
    yaw := yaw
    targetPoses := [(x, y, yaw)]
    targetPose := (x, y, yaw)
    idx := 0
    abort := false
    cmdQueue := []
    targetVelLin := 0
    targetVelAng := 0
    scriptTime := 0
    animType := "standing"
    lastUpdate := 0 }

/-- `VelCallback` (lines 178-184): keep `linear.x` and `angular.z` of the
incoming twist and push them onto `cmd_queue_`. -/
def VelCallback (s : State) (m : TwistMsg) : State :=
  { s with cmdQueue := s.cmdQueue ++ [(m.linX, m.angZ)] }

/-- Yaw extracted by `tf2::Matrix3x3::getRPY` from a quaternion, in the
non-degenerate case (`atan2(2(wz + xy), 1 - 2(y² + z²))`).  The controller
never reads the stored waypoint yaw, so the gimbal-lock branch is irrelevant
to every property below. -/
noncomputable def quatToYaw (x y z w : ℝ) : ℝ :=
  atan2 (2 * (w * z + x * y)) (1 - 2 * (y * y + z * z))

/-- `PathCallback` (lines 186-207): clear `target_poses_`, reset `idx_` to 0,
clear `abort_`, then push one `(x, y, yaw)` triple per incoming pose.
`target_pose_` is not touched. -/
noncomputable def PathCallback (s : State) (msg : List PoseMsg) : State :=
  { s with
    targetPoses := msg.map fun pm => (pm.px, pm.py, quatToYaw pm.qx pm.qy pm.qz pm.qw)
    idx := 0
    abort := false }

/-- `AbortCallback` (lines 209-211): copy the boolean into `abort_`. -/
def AbortCallback (s : State) (b : Bool) : State := { s with abort := b }

/-- `ChooseNewTarget` (lines 334-339): increment `idx_` and load
`target_poses_.at(idx_)`.  `at` is modelled totally by `getD`; the in-bounds
guard at the unique call site is proved below. -/
def ChooseNewTarget (s : State) : State :=
  { s with idx := s.idx + 1, targetPose := s.targetPoses.getD (s.idx + 1) (0, 0, 0) }

/-- Planar displacement `target_pos_2d - current_pos_2d` (lines 233-236). -/
def targetDisp (s : State) : ℝ × ℝ :=
  (s.targetPose.1 - s.posX, s.targetPose.2.1 - s.posY)

/-- Distance from the actor to the current target (line 237). -/
noncomputable def distToTarget (s : State) : ℝ := vlen (targetDisp s)

/-- The abort / empty-list branch of the path tick (lines 239-246): clear the
waypoint list, snap the planar target to the current position, reset the
index. -/
def abortBranch (s : State) : State :=
  { s with
    targetPoses := []
    targetPose := (s.posX, s.posY, s.targetPose.2.2)
    idx := 0 }

/-- Lines 239-261 of the path tick: pick the state mutation, the motion vector
`pos` and the trajectory type for this tick. -/
noncomputable def pathSelect (p : Params) (s : State) : State × (ℝ × ℝ) × String :=
  if s.abort = true ∨ s.targetPoses = [] then
    (abortBranch s, (0, 0), "walking")
  else if distToTarget s < p.linTolerance then
    if s.idx < s.targetPoses.length - 1 then
      ((ChooseNewTarget s),
       ((ChooseNewTarget s).targetPose.1 - s.posX,
        (ChooseNewTarget s).targetPose.2.1 - s.posY), "walking")
    else (s, (0, 0), "standing")
  else (s, targetDisp s, "walking")

/-- Line 264-266: normalize the direction vector when nonzero. -/
noncomputable def normalizeUnit (v : ℝ × ℝ) : ℝ × ℝ :=
  if vlen v ≠ 0 then (v.1 / vlen v, v.2 / vlen v) else v

/-- Lines 271-275: the required angular displacement, normalized into
`(-π, π]`; zero when the motion vector is zero. -/
noncomputable def angularError (p : Params) (u : ℝ × ℝ) (rpyZ : ℝ) : ℝ :=
  if vlen u ≠ 0 then normalizeAngle (atan2 u.2 u.1 + p.defaultRotation - rpyZ) else 0

/-- The odometry record built in lines 220-229, before either mode branch
runs: position and orientation from the pose read at the start of the tick,
twist fields still zero. -/
noncomputable def baseOdom (p : Params) (s : State) : Odom :=
  { posX := s.posX
    posY := s.posY
    orientYaw := normalizeAngle s.yaw - p.defaultRotation
    twistLinX := 0
    twistLinY := 0
    twistAngZ := some 0 }

/-- Lines 322-331: publish, compute the distance traveled this tick, write the
new pose back, advance the script time and record the update time. -/
noncomputable def tickFinish (p : Params) (s1 : State) (simTime newX newY newYaw : ℝ)
    (anim : String) (odom : Odom) : State × Odom :=
  ({ s1 with
      posX := newX
      posY := newY
      yaw := newYaw
      animType := anim
      scriptTime := s1.scriptTime +
        vlen (newX - s1.posX, newY - s1.posY) * p.animationFactor
      lastUpdate := simTime }, odom)

/-- Lines 263-294 of the path tick: turn-then-move gating applied to the
motion vector chosen by `pathSelect`. -/
noncomputable def pathMove (p : Params) (s1 : State) (pos2 : ℝ × ℝ) (anim : String)
    (simTime : ℝ) : State × Odom :=
  let dt := simTime - s1.lastUpdate
  let rpyZ := normalizeAngle s1.yaw
  let u := normalizeUnit pos2
  let yawErr := angularError p u rpyZ
  let rotSign : ℝ := if yawErr < 0 then -1 else 1
  if |yawErr| > p.angTolerance then
    tickFinish p s1 simTime s1.posX s1.posY (rpyZ + rotSign * p.angVelocity * dt) anim
      { baseOdom p s1 with twistAngZ := some (rotSign * p.angVelocity) }
  else
    tickFinish p s1 simTime (s1.posX + u.1 * p.linVelocity * dt)
      (s1.posY + u.2 * p.linVelocity * dt) (rpyZ + yawErr) anim
      { baseOdom p s1 with
        twistLinX := u.1 * p.linVelocity
        twistLinY := u.2 * p.linVelocity
        twistAngZ := ieeeDiv yawErr dt }

/-- Lines 296-319: the velocity-following tick.  At most one queued command is
popped; position integrates the held linear speed along the current heading
and the heading integrates the held angular rate.  The held angular rate is
stored as `Quaterniond(0, 0, z)` and read back via `Euler().Z()`, hence the
`normalizeAngle` at the use sites. -/
noncomputable def velTick (p : Params) (s : State) (simTime : ℝ) : State × Odom :=
  let dt := simTime - s.lastUpdate
  let rpyZ := normalizeAngle s.yaw
  let s1 : State :=
    match s.cmdQueue with
    | [] => s
    | c :: rest => { s with cmdQueue := rest, targetVelLin := c.1, targetVelAng := c.2 }
  let vLin := s1.targetVelLin
  let vAng := normalizeAngle s1.targetVelAng
  tickFinish p s1 simTime
    (s.posX + vLin * Real.cos (rpyZ - p.defaultRotation) * dt)
    (s.posY + vLin * Real.sin (rpyZ - p.defaultRotation) * dt)
    (rpyZ + vAng * dt) "walking"
    { baseOdom p s with
      twistLinX := vLin * Real.cos (rpyZ - p.defaultRotation)
      twistLinY := vLin * Real.sin (rpyZ - p.defaultRotation)
      twistAngZ := some vAng }

/-- `OnUpdate` (lines 214-332): one simulation tick at simulated time
`simTime`.  Returns the new state and the odometry record published by this
tick. -/
noncomputable def OnUpdate (p : Params) (s : State) (simTime : ℝ) : State × Odom :=
  if p.followMode = "path" then
    pathMove p (pathSelect p s).1 (pathSelect p s).2.1 (pathSelect p s).2.2 simTime
  else if p.followMode = "velocity" then
    velTick p s simTime
  else
    tickFinish p s simTime s.posX s.posY s.yaw s.animType (baseOdom p s)

/-- Iterated ticks at the given simulated times. -/
noncomputable def runTicks (p : Params) (s : State) (ts : List ℝ) : State :=
  ts.foldl (fun st t => (OnUpdate p st t).1) s

/-- An external input consumed by the plugin: a simulation tick or one of the
three subscribed messages. -/
inductive Event where
  | tick (t : ℝ)
  | vel (m : TwistMsg)
  | pathMsg (ps : List PoseMsg)
  | abortSig (b : Bool)

/-- Apply one event: ticks run `OnUpdate` and publish one odometry record;
callbacks mutate the state and publish nothing. -/
noncomputable def applyEvent (p : Params) (s : State) : Event → State × Option Odom
  | .tick t => ((OnUpdate p s t).1, some (OnUpdate p s t).2)
  | .vel m => (VelCallback s m, none)
  | .pathMsg ps => (PathCallback s ps, none)
  | .abortSig b => (AbortCallback s b, none)

/-- Run a sequence of events, collecting the published odometry records. -/
noncomputable def runEvents (p : Params) (s : State) : List Event → State × List Odom
  | [] => (s, [])
  | e :: es =>
    match applyEvent p s e, runEvents p (applyEvent p s e).1 es with
    | (_, some o), (s2, os) => (s2, o :: os)
    | (_, none), (s2, os) => (s2, os)

/-- Two events agree when they are the same input except that velocity
messages may differ in the four twist components the plugin ignores
(`linear.y`, `linear.z`, `angular.x`, `angular.y`). -/
def EventAgree : Event → Event → Prop
  | .tick t1, .tick t2 => t1 = t2
  | .vel m1, .vel m2 => m1.linX = m2.linX ∧ m1.angZ = m2.angZ
  | .pathMsg l1, .pathMsg l2 => l1 = l2
  | .abortSig b1, .abortSig b2 => b1 = b2
  | _, _ => False

/-- States reachable from some `Reset` state by ticks and callbacks, each
applied atomically (the queue workers feed the tick under the atomicity the
spec assumes). -/
inductive Reachable (p : Params) : State → Prop where
  | init (x y yaw : ℝ) : Reachable p (initState x y yaw)
  | tick {s : State} (t : ℝ) : Reachable p s → Reachable p (OnUpdate p s t).1
  | vel {s : State} (m : TwistMsg) : Reachable p s → Reachable p (VelCallback s m)
  | pathMsg {s : State} (ps : List PoseMsg) : Reachable p s → Reachable p (PathCallback s ps)
  | abortSig {s : State} (b : Bool) : Reachable p s → Reachable p (AbortCallback s b)

/-! ### Concrete parameter and state values used in witnesses -/

/-- Path-following configuration: tolerances 0.1 distance / 1 radian, unit
velocities, zero default rotation. -/
def pPath : Params :=
  { followMode := "path"
    linTolerance := 0.1
    linVelocity := 1
    angTolerance := 1
    angVelocity := 1
    animationFactor := 4
    defaultRotation := 0 }

/-- Velocity-following configuration with the same numeric parameters. -/
def pVel : Params := { pPath with followMode := "velocity" }

/-- An aborted path state at the origin. -/
def sAbort : State := { initState 0 0 0 with abort := true }

/-- A state holding a unit forward velocity command. -/
def sVel : State := { initState 0 0 0 with targetVelLin := 1 }

/-- State whose current target differs from the incoming path. -/
def sC2 : State := { initState 0 0 0 with targetPose := (1, 2, 3) }

/-- A one-pose path message at (5, 5) with identity orientation. -/
def msgC2 : List PoseMsg := [⟨5, 5, 0, 0, 0, 0, 1⟩]

/-- A path state at the origin facing `+y` with a target on the `+x` axis:
far from the target and outside the angular tolerance. -/
noncomputable def sTurn : State :=
  { initState 0 0 (Real.pi / 2) with
    targetPoses := [(10, 0, 0)]
    targetPose := (10, 0, 0) }

/-- A path state at the origin facing its target on the `+x` axis. -/
def sAligned : State :=
  { initState 0 0 0 with
    targetPoses := [(5, 0, 0)]
    targetPose := (5, 0, 0) }

end ActorCmd

namespace ActorCmd

/-! ### Basic facts about `vlen`, `atan2` and `normalizeAngle` -/

theorem vlen_nonneg (v : ℝ × ℝ) : 0 ≤ vlen v := Real.sqrt_nonneg _

theorem vlen_zero : vlen (0, 0) = 0 := by simp [vlen]

theorem vlen_eq_zero_iff (v : ℝ × ℝ) : vlen v = 0 ↔ v = (0, 0) := by
  obtain ⟨a, b⟩ := v
  simp only [vlen, Real.sqrt_eq_zero', Prod.mk.injEq]
  constructor
  · intro h
    constructor <;> nlinarith [sq_nonneg a, sq_nonneg b]
  · rintro ⟨rfl, rfl⟩
    norm_num

theorem vlen_pos {v : ℝ × ℝ} (h : v ≠ (0, 0)) : 0 < vlen v :=
  (vlen_nonneg v).lt_of_ne fun he => h ((vlen_eq_zero_iff v).1 he.symm)

theorem vlen_smul (c a b : ℝ) : vlen (c * a, c * b) = |c| * vlen (a, b) := by
  simp only [vlen]
  rw [show (c * a) ^ 2 + (c * b) ^ 2 = c ^ 2 * (a ^ 2 + b ^ 2) by ring,
    Real.sqrt_mul (sq_nonneg c), Real.sqrt_sq_eq_abs]

theorem normalizeUnit_of_ne {v : ℝ × ℝ} (h : vlen v ≠ 0) :
    normalizeUnit v = (v.1 / vlen v, v.2 / vlen v) := by
  simp [normalizeUnit, h]

theorem normalizeUnit_zero : normalizeUnit (0, 0) = (0, 0) := by
  simp [normalizeUnit, vlen_zero]

theorem vlen_zero' : vlen (0 : ℝ × ℝ) = 0 := by simp [vlen]

theorem normalizeUnit_zero' : normalizeUnit (0 : ℝ × ℝ) = 0 := by
  simp [normalizeUnit, vlen_zero']

theorem vlen_normalizeUnit {v : ℝ × ℝ} (h : vlen v ≠ 0) :
    vlen (normalizeUnit v) = 1 := by
  rw [normalizeUnit_of_ne h]
  have hpos : 0 < vlen v := (vlen_nonneg v).lt_of_ne (Ne.symm h)
  have h1 : (v.1 / vlen v, v.2 / vlen v) = ((vlen v)⁻¹ * v.1, (vlen v)⁻¹ * v.2) := by
    rw [div_eq_inv_mul, div_eq_inv_mul]
  rw [h1, vlen_smul, abs_of_pos (inv_pos.mpr hpos)]
  exact inv_mul_cancel₀ h

theorem normalizeAngle_eq_arg (a : ℝ) :
    normalizeAngle a = Complex.arg (Complex.cos a + Complex.sin a * Complex.I) := by
  unfold normalizeAngle atan2
  rw [Complex.mk_eq_add_mul_I, Complex.ofReal_cos, Complex.ofReal_sin]

theorem normalizeAngle_sub_self (a : ℝ) :
    ∃ k : ℤ, normalizeAngle a = a + 2 * Real.pi * k := by
  refine ⟨⌊(Real.pi - a) / (2 * Real.pi)⌋, ?_⟩
  have h := Complex.arg_cos_add_sin_mul_I_sub a
  rw [← normalizeAngle_eq_arg] at h
  linarith

theorem normalizeAngle_mem (a : ℝ) :
    normalizeAngle a ∈ Set.Ioc (-Real.pi) Real.pi := by
  rw [normalizeAngle_eq_arg]
  exact Complex.arg_mem_Ioc _

theorem normalizeAngle_eq_self {a : ℝ} (h : a ∈ Set.Ioc (-Real.pi) Real.pi) :
    normalizeAngle a = a := by
  rw [normalizeAngle_eq_arg]
  exact Complex.arg_cos_add_sin_mul_I h

theorem normalizeAngle_idem (a : ℝ) :
    normalizeAngle (normalizeAngle a) = normalizeAngle a :=
  normalizeAngle_eq_self (normalizeAngle_mem a)

theorem normalizeAngle_zero : normalizeAngle 0 = 0 :=
  normalizeAngle_eq_self ⟨neg_lt_zero.mpr Real.pi_pos, Real.pi_pos.le⟩

theorem cos_normalizeAngle_sub (a c : ℝ) :
    Real.cos (normalizeAngle a - c) = Real.cos (a - c) := by
  obtain ⟨k, hk⟩ := normalizeAngle_sub_self a
  rw [hk, show a + 2 * Real.pi * k - c = a - c + k * (2 * Real.pi) by ring,
    Real.cos_add_int_mul_two_pi]

theorem sin_normalizeAngle_sub (a c : ℝ) :
    Real.sin (normalizeAngle a - c) = Real.sin (a - c) := by
  obtain ⟨k, hk⟩ := normalizeAngle_sub_self a
  rw [hk, show a + 2 * Real.pi * k - c = a - c + k * (2 * Real.pi) by ring,
    Real.sin_add_int_mul_two_pi]

theorem atan2_zero_of_nonneg {x : ℝ} (hx : 0 ≤ x) : atan2 0 x = 0 := by
  unfold atan2
  have h1 : (⟨x, 0⟩ : ℂ) = (x : ℂ) := by
    apply Complex.ext <;> simp
  rw [h1]
  exact Complex.arg_ofReal_of_nonneg hx

/-! ### Branch characterization of one tick -/

theorem runTicks_nil (p : Params) (s : State) : runTicks p s [] = s := rfl

theorem runTicks_cons (p : Params) (s : State) (t : ℝ) (ts : List ℝ) :
    runTicks p s (t :: ts) = runTicks p (OnUpdate p s t).1 ts := rfl

theorem OnUpdate_path (p : Params) (s : State) (t : ℝ) (hm : p.followMode = "path") :
    OnUpdate p s t
      = pathMove p (pathSelect p s).1 (pathSelect p s).2.1 (pathSelect p s).2.2 t := by
  simp [OnUpdate, hm]

theorem OnUpdate_velocity (p : Params) (s : State) (t : ℝ)
    (hm : p.followMode = "velocity") : OnUpdate p s t = velTick p s t := by
  simp [OnUpdate, hm]

theorem pathSelect_abort (p : Params) (s : State)
    (h : s.abort = true ∨ s.targetPoses = []) :
    pathSelect p s = (abortBranch s, (0, 0), "walking") := by
  unfold pathSelect
  rw [if_pos h]

theorem pathSelect_advance (p : Params) (s : State) (h1 : s.abort = false)
    (h2 : s.targetPoses ≠ []) (h3 : distToTarget s < p.linTolerance)
    (h4 : s.idx < s.targetPoses.length - 1) :
    pathSelect p s = (ChooseNewTarget s,
      ((ChooseNewTarget s).targetPose.1 - s.posX,
       (ChooseNewTarget s).targetPose.2.1 - s.posY), "walking") := by
  unfold pathSelect
  rw [if_neg (by simp [h1, h2]), if_pos h3, if_pos h4]

theorem pathSelect_done (p : Params) (s : State) (h1 : s.abort = false)
    (h2 : s.targetPoses ≠ []) (h3 : distToTarget s < p.linTolerance)
    (h4 : ¬ s.idx < s.targetPoses.length - 1) :
    pathSelect p s = (s, (0, 0), "standing") := by
  unfold pathSelect
  rw [if_neg (by simp [h1, h2]), if_pos h3, if_neg h4]

theorem pathSelect_far (p : Params) (s : State) (h1 : s.abort = false)
    (h2 : s.targetPoses ≠ []) (h3 : ¬ distToTarget s < p.linTolerance) :
    pathSelect p s = (s, targetDisp s, "walking") := by
  unfold pathSelect
  rw [if_neg (by simp [h1, h2]), if_neg h3]

theorem pathMove_rotate (p : Params) (s1 : State) (pos2 : ℝ × ℝ) (anim : String)
    (t : ℝ)
    (h : |angularError p (normalizeUnit pos2) (normalizeAngle s1.yaw)| > p.angTolerance) :
    pathMove p s1 pos2 anim t =
      tickFinish p s1 t s1.posX s1.posY
        (normalizeAngle s1.yaw +
          (if angularError p (normalizeUnit pos2) (normalizeAngle s1.yaw) < 0
            then (-1 : ℝ) else 1) * p.angVelocity * (t - s1.lastUpdate)) anim
        { baseOdom p s1 with
          twistAngZ := some
            ((if angularError p (normalizeUnit pos2) (normalizeAngle s1.yaw) < 0
              then (-1 : ℝ) else 1) * p.angVelocity) } := by
  simp only [pathMove]
  rw [if_pos h]

theorem pathMove_translate (p : Params) (s1 : State) (pos2 : ℝ × ℝ) (anim : String)
    (t : ℝ)
    (h : ¬ |angularError p (normalizeUnit pos2) (normalizeAngle s1.yaw)| > p.angTolerance) :
    pathMove p s1 pos2 anim t =
      tickFinish p s1 t
        (s1.posX + (normalizeUnit pos2).1 * p.linVelocity * (t - s1.lastUpdate))
        (s1.posY + (normalizeUnit pos2).2 * p.linVelocity * (t - s1.lastUpdate))
        (normalizeAngle s1.yaw +
          angularError p (normalizeUnit pos2) (normalizeAngle s1.yaw)) anim
        { baseOdom p s1 with
          twistLinX := (normalizeUnit pos2).1 * p.linVelocity
          twistLinY := (normalizeUnit pos2).2 * p.linVelocity
          twistAngZ := ieeeDiv (angularError p (normalizeUnit pos2) (normalizeAngle s1.yaw))
            (t - s1.lastUpdate) } := by
  simp only [pathMove]
  rw [if_neg h]


/-! ### Behaviour of a tick in the abort / empty-list branch -/

theorem tick_abort_hold (p : Params) (s : State) (t : ℝ)
    (hm : p.followMode = "path") (ha : s.abort = true ∨ s.targetPoses = []) :
    (OnUpdate p s t).1.posX = s.posX ∧ (OnUpdate p s t).1.posY = s.posY ∧
    (OnUpdate p s t).1.abort = s.abort ∧ (OnUpdate p s t).1.animType = "walking" ∧
    (OnUpdate p s t).1.targetPoses = [] ∧ (OnUpdate p s t).1.idx = 0 ∧
    (OnUpdate p s t).1.targetPose = (s.posX, s.posY, s.targetPose.2.2) ∧
    (OnUpdate p s t).1.scriptTime = s.scriptTime := by
  rw [OnUpdate_path p s t hm, pathSelect_abort p s ha]
  by_cases hb : |angularError p (normalizeUnit ((0 : ℝ), (0 : ℝ)))
      (normalizeAngle (abortBranch s).yaw)| > p.angTolerance
  · rw [pathMove_rotate _ _ _ _ _ hb]
    simp [tickFinish, abortBranch, vlen_zero, vlen_zero']
  · rw [pathMove_translate _ _ _ _ _ hb]
    simp [tickFinish, abortBranch, normalizeUnit_zero, normalizeUnit_zero', vlen_zero,
      vlen_zero']

/-- C1, claim as stated is false: an aborted path tick keeps the "walking"
clip (line 232 sets it and the abort branch never switches to "standing"). -/
theorem C1_counterexample :
    (OnUpdate pPath sAbort 1).1.posX = sAbort.posX ∧
    (OnUpdate pPath sAbort 1).1.animType = "walking" ∧
    ¬ (OnUpdate pPath sAbort 1).1.animType = "standing" := by
  obtain ⟨h1, -, -, h4, -⟩ := tick_abort_hold pPath sAbort 1 rfl (Or.inl rfl)
  refine ⟨h1, h4, ?_⟩
  rw [h4]
  decide

/-- C1 (amended): in path mode, once `abort` is set every subsequent tick
holds the position, keeps the flag set, and selects the "walking" clip (not
"standing"); the animation clock does not advance. -/
theorem C1_abort_freezes (p : Params) (s : State) (ts : List ℝ)
    (hm : p.followMode = "path") (ha : s.abort = true) :
    (runTicks p s ts).posX = s.posX ∧ (runTicks p s ts).posY = s.posY ∧
    (runTicks p s ts).abort = true ∧
    (runTicks p s ts).scriptTime = s.scriptTime ∧
    (ts ≠ [] → (runTicks p s ts).animType = "walking") := by
  induction ts generalizing s with
  | nil => exact ⟨rfl, rfl, ha, rfl, fun h => absurd rfl h⟩
  | cons t ts ih =>
    obtain ⟨h1, h2, h3, h4, -, -, -, h8⟩ := tick_abort_hold p s t hm (Or.inl ha)
    obtain ⟨g1, g2, g3, g4, g5⟩ := ih (OnUpdate p s t).1 (h3.trans ha)
    rw [runTicks_cons]
    refine ⟨g1.trans h1, g2.trans h2, g3, g4.trans h8, fun _ => ?_⟩
    cases ts with
    | nil => rw [runTicks_nil]; exact h4
    | cons t2 ts2 => exact g5 (by simp)

/-- Witness for `C1_abort_freezes` at a concrete aborted state and two
ticks. -/
theorem C1_witness :
    pPath.followMode = "path" ∧ sAbort.abort = true ∧
    ((runTicks pPath sAbort [1, 2]).posX = sAbort.posX ∧
     (runTicks pPath sAbort [1, 2]).posY = sAbort.posY ∧
     (runTicks pPath sAbort [1, 2]).abort = true ∧
     (runTicks pPath sAbort [1, 2]).scriptTime = sAbort.scriptTime ∧
     (([1, 2] : List ℝ) ≠ [] → (runTicks pPath sAbort [1, 2]).animType = "walking")) :=
  ⟨rfl, rfl, C1_abort_freezes pPath sAbort [1, 2] rfl rfl⟩

/-! ### C2: the path callback -/

/-- C2 (amended): `PathCallback` replaces the waypoint list wholesale, resets
the index to 0 and clears the abort flag, but leaves the current target
waypoint (and the pose) unchanged; `target_pose_` is only updated later by
`ChooseNewTarget` or the abort branch of a tick. -/
theorem C2_pathCallback (s : State) (msg : List PoseMsg) :
    (PathCallback s msg).targetPoses
        = msg.map (fun pm => (pm.px, pm.py, quatToYaw pm.qx pm.qy pm.qz pm.qw)) ∧
    (PathCallback s msg).idx = 0 ∧
    (PathCallback s msg).abort = false ∧
    (PathCallback s msg).targetPose = s.targetPose ∧
    (PathCallback s msg).posX = s.posX ∧ (PathCallback s msg).posY = s.posY :=
  ⟨rfl, rfl, rfl, rfl, rfl, rfl⟩

/-- C2, claim as stated is false: after `PathCallback` the current target is
NOT the first waypoint of the new list — it still holds its old value. -/
theorem C2_counterexample :
    (PathCallback sC2 msgC2).targetPoses.getD 0 (0, 0, 0) = ((5 : ℝ), (5 : ℝ), (0 : ℝ)) ∧
    (PathCallback sC2 msgC2).targetPose = ((1 : ℝ), (2 : ℝ), (3 : ℝ)) ∧
    (PathCallback sC2 msgC2).targetPose
      ≠ (PathCallback sC2 msgC2).targetPoses.getD 0 (0, 0, 0) := by
  have hq : quatToYaw 0 0 0 1 = 0 := by
    have h1 : quatToYaw 0 0 0 1 = atan2 0 1 := by
      unfold quatToYaw
      norm_num
    rw [h1]
    exact atan2_zero_of_nonneg zero_le_one
  have h0 : (PathCallback sC2 msgC2).targetPoses.getD 0 (0, 0, 0)
      = ((5 : ℝ), (5 : ℝ), (0 : ℝ)) := by
    simp [PathCallback, msgC2, hq]
  have h1 : (PathCallback sC2 msgC2).targetPose = ((1 : ℝ), (2 : ℝ), (3 : ℝ)) := rfl
  refine ⟨h0, h1, ?_⟩
  rw [h0, h1]
  intro hcontra
  have := congrArg (fun w : Waypoint => w.1) hcontra
  norm_num at this

/-! ### C6: what the published odometry contains -/

/-- Every branch publishes the odometry built in lines 220-229 from the pose
read at the start of the tick; only the twist fields are filled in later. -/
theorem odomOldPose (p : Params) (s : State) (t : ℝ) :
    (OnUpdate p s t).2.posX = s.posX ∧ (OnUpdate p s t).2.posY = s.posY ∧
    (OnUpdate p s t).2.orientYaw = normalizeAngle s.yaw - p.defaultRotation := by
  unfold OnUpdate
  split
  · have hpres : (pathSelect p s).1.posX = s.posX ∧ (pathSelect p s).1.posY = s.posY ∧
        (pathSelect p s).1.yaw = s.yaw := by
      unfold pathSelect
      split
      · simp [abortBranch]
      · split
        · split
          · simp [ChooseNewTarget]
          · simp
        · simp
    obtain ⟨e1, e2, e3⟩ := hpres
    simp only [pathMove]
    split <;> simp [tickFinish, baseOdom, e1, e2, e3]
  · split
    · simp only [velTick]
      simp [tickFinish, baseOdom]
    · simp [tickFinish, baseOdom]

/-- C6 (amended): each tick publishes exactly one odometry record whose
position and orientation are those of the pose at the start of the tick (the
previous tick's result), with orientation yaw = old heading minus the default
rotation offset; the twist fields are the tick's estimate. -/
theorem C6_odom_is_pre_tick_pose (p : Params) (s : State) (t : ℝ) :
    (OnUpdate p s t).2.posX = s.posX ∧ (OnUpdate p s t).2.posY = s.posY ∧
    (OnUpdate p s t).2.orientYaw = normalizeAngle s.yaw - p.defaultRotation :=
  odomOldPose p s t

/-- C6, claim as stated is false: the published position is the pre-tick
pose, not the new pose this tick computed. -/
theorem C6_counterexample :
    (OnUpdate pVel sVel 1).1.posX = 1 ∧ (OnUpdate pVel sVel 1).2.posX = 0 ∧
    (OnUpdate pVel sVel 1).2.posX ≠ (OnUpdate pVel sVel 1).1.posX := by
  have h1 : (OnUpdate pVel sVel 1).1.posX = 1 := by
    rw [OnUpdate_velocity _ _ _ rfl]
    simp only [velTick]
    simp [tickFinish, sVel, initState, pVel, pPath, normalizeAngle_zero]
  have h2 : (OnUpdate pVel sVel 1).2.posX = 0 := (odomOldPose pVel sVel 1).1
  refine ⟨h1, h2, ?_⟩
  rw [h1, h2]
  norm_num


/-! ### C5: ticks with zero elapsed time -/

theorem pathSelect_preserves (p : Params) (s : State) :
    (pathSelect p s).1.posX = s.posX ∧ (pathSelect p s).1.posY = s.posY ∧
    (pathSelect p s).1.yaw = s.yaw ∧ (pathSelect p s).1.lastUpdate = s.lastUpdate ∧
    (pathSelect p s).1.scriptTime = s.scriptTime ∧
    (pathSelect p s).1.abort = s.abort ∧
    (pathSelect p s).1.cmdQueue = s.cmdQueue := by
  unfold pathSelect
  split
  · simp [abortBranch]
  · split
    · split
      · simp [ChooseNewTarget]
      · simp
    · simp

/-- C5 (amended): a tick with `dt = 0` produces zero position delta and zero
traveled distance in every state; however the angular twist of a translating
path tick is the unguarded quotient angular-error / dt (line 293), which for
`dt = 0` is an IEEE 0/0 (NaN), not 0. -/
theorem C5_zero_dt (p : Params) (s : State) (t : ℝ) (h : t - s.lastUpdate = 0) :
    (OnUpdate p s t).1.posX = s.posX ∧ (OnUpdate p s t).1.posY = s.posY ∧
    vlen ((OnUpdate p s t).1.posX - s.posX, (OnUpdate p s t).1.posY - s.posY) = 0 ∧
    (OnUpdate p s t).1.scriptTime = s.scriptTime := by
  unfold OnUpdate
  split
  · obtain ⟨e1, e2, e3, e4, e5, -⟩ := pathSelect_preserves p s
    simp only [pathMove]
    split
    · simp [tickFinish, e1, e2, e5, vlen_zero, vlen_zero']
    · simp [tickFinish, e1, e2, e4, e5, h, vlen_zero, vlen_zero']
  · split
    · simp only [velTick]
      cases hq : s.cmdQueue with
      | nil => simp [tickFinish, h, hq, vlen_zero, vlen_zero']
      | cons c rest => simp [tickFinish, h, hq, vlen_zero, vlen_zero']
    · simp [tickFinish, h, vlen_zero, vlen_zero']

/-- Witness for `C5_zero_dt` at a concrete state with `dt = 0`. -/
theorem C5_witness :
    (0 : ℝ) - sVel.lastUpdate = 0 ∧
    ((OnUpdate pVel sVel 0).1.posX = sVel.posX ∧
     (OnUpdate pVel sVel 0).1.posY = sVel.posY ∧
     vlen ((OnUpdate pVel sVel 0).1.posX - sVel.posX,
           (OnUpdate pVel sVel 0).1.posY - sVel.posY) = 0 ∧
     (OnUpdate pVel sVel 0).1.scriptTime = sVel.scriptTime) :=
  ⟨by norm_num [sVel, initState], C5_zero_dt pVel sVel 0 (by norm_num [sVel, initState])⟩

/-- C5, claim as stated is false: with `dt = 0` the translating path branch
computes `yaw.Radian() / dt` with a zero divisor, so the published angular
twist is an IEEE 0/0 (modelled `none`), not the claimed 0. -/
theorem C5_counterexample :
    (OnUpdate pPath sAbort 0).2.twistAngZ = none ∧
    (OnUpdate pPath sAbort 0).2.twistAngZ ≠ some 0 := by
  rw [OnUpdate_path pPath sAbort 0 rfl, pathSelect_abort pPath sAbort (Or.inl rfl)]
  have herr : angularError pPath (normalizeUnit ((0 : ℝ), (0 : ℝ)))
      (normalizeAngle (abortBranch sAbort).yaw) = 0 := by
    simp [angularError, normalizeUnit_zero, normalizeUnit_zero', vlen_zero, vlen_zero']
  have hb : ¬ |angularError pPath (normalizeUnit ((0 : ℝ), (0 : ℝ)))
      (normalizeAngle (abortBranch sAbort).yaw)| > pPath.angTolerance := by
    rw [herr]
    norm_num [pPath]
  rw [pathMove_translate _ _ _ _ _ hb]
  have hdt : (0 : ℝ) - (abortBranch sAbort).lastUpdate = 0 := by
    norm_num [abortBranch, sAbort, initState]
  simp [tickFinish, herr, hdt, ieeeDiv]

/-! ### C9: animation clip selection -/

theorem pathMove_anim (p : Params) (s1 : State) (pos2 : ℝ × ℝ) (anim : String)
    (t : ℝ) : (pathMove p s1 pos2 anim t).1.animType = anim := by
  simp only [pathMove]
  split <;> simp [tickFinish]

/-- C9 (amended): the velocity branch always selects the "walking" clip, even
when the held command is zero; the path branch selects "standing" exactly in
the all-targets-reached case (not aborted, nonempty list, within linear
tolerance, no further waypoint) and "walking" in every other case, including
aborted or zero-motion ticks. -/
theorem C9_anim_selection (p : Params) (s : State) (t : ℝ) :
    (p.followMode = "velocity" → (OnUpdate p s t).1.animType = "walking") ∧
    (p.followMode = "path" →
      ((OnUpdate p s t).1.animType = "standing" ↔
        s.abort = false ∧ s.targetPoses ≠ [] ∧ distToTarget s < p.linTolerance ∧
          ¬ s.idx < s.targetPoses.length - 1)) := by
  constructor
  · intro hm
    rw [OnUpdate_velocity p s t hm]
    simp only [velTick]
    simp [tickFinish]
  · intro hm
    rw [OnUpdate_path p s t hm, pathMove_anim]
    by_cases h1 : s.abort = true ∨ s.targetPoses = []
    · have h5 : (pathSelect p s).2.2 = "walking" := by
        rw [pathSelect_abort p s h1]
      rw [h5]
      constructor
      · intro hcon
        exact absurd hcon (by decide)
      · rintro ⟨ha, hne, -⟩
        rcases h1 with h1 | h1
        · rw [ha] at h1
          exact absurd h1 (by decide)
        · exact absurd h1 hne
    · push_neg at h1
      have ha : s.abort = false := by
        simpa using h1.1
      by_cases h3 : distToTarget s < p.linTolerance
      · by_cases h4 : s.idx < s.targetPoses.length - 1
        · have h5 : (pathSelect p s).2.2 = "walking" := by
            rw [pathSelect_advance p s ha h1.2 h3 h4]
          rw [h5]
          constructor
          · intro hcon
            exact absurd hcon (by decide)
          · rintro ⟨-, -, -, h4c⟩
            exact absurd h4 h4c
        · have h5 : (pathSelect p s).2.2 = "standing" := by
            rw [pathSelect_done p s ha h1.2 h3 h4]
          rw [h5]
          simp [ha, h1.2, h3, h4]
      · have h5 : (pathSelect p s).2.2 = "walking" := by
          rw [pathSelect_far p s ha h1.2 h3]
        rw [h5]
        constructor
        · intro hcon
          exact absurd hcon (by decide)
        · rintro ⟨-, -, h3c, -⟩
          exact absurd h3c h3

/-- Witness for `C9_anim_selection`: both implications fire at concrete
inputs. -/
theorem C9_witness :
    pVel.followMode = "velocity" ∧ (OnUpdate pVel sVel 1).1.animType = "walking" ∧
    pPath.followMode = "path" ∧
    ((OnUpdate pPath sAbort 1).1.animType = "standing" ↔
      sAbort.abort = false ∧ sAbort.targetPoses ≠ [] ∧
        distToTarget sAbort < pPath.linTolerance ∧
        ¬ sAbort.idx < sAbort.targetPoses.length - 1) :=
  ⟨rfl, (C9_anim_selection pVel sVel 1).1 rfl, rfl,
    (C9_anim_selection pPath sAbort 1).2 rfl⟩

/-- C9, claim as stated is false: a velocity tick whose commanded motion is
zero (held velocity 0) still selects the "walking" clip. -/
theorem C9_counterexample :
    (OnUpdate pVel (initState 0 0 0) 1).1.posX = 0 ∧
    (OnUpdate pVel (initState 0 0 0) 1).1.posY = 0 ∧
    (OnUpdate pVel (initState 0 0 0) 1).1.animType = "walking" ∧
    (OnUpdate pVel (initState 0 0 0) 1).1.animType ≠ "standing" := by
  rw [OnUpdate_velocity pVel (initState 0 0 0) 1 rfl]
  simp only [velTick]
  refine ⟨?_, ?_, ?_, ?_⟩ <;>
    simp [tickFinish, initState, normalizeAngle_zero]

/-! ### C10: only `linear.x` and `angular.z` of a velocity command matter -/

theorem velCallback_agree (s : State) (m1 m2 : TwistMsg)
    (hx : m1.linX = m2.linX) (hz : m1.angZ = m2.angZ) :
    VelCallback s m1 = VelCallback s m2 := by
  unfold VelCallback
  rw [hx, hz]

/-- C10 (confirmed): runs over two event sequences that agree except in the
ignored twist components (`linear.y`, `linear.z`, `angular.x`, `angular.y`)
produce identical final states and identical published odometry. -/
theorem C10_ignored_fields (p : Params) (s : State) (es1 es2 : List Event)
    (h : List.Forall₂ EventAgree es1 es2) :
    runEvents p s es1 = runEvents p s es2 := by
  induction h generalizing s with
  | nil => rfl
  | cons hag _ ih =>
    rename_i e1 e2 l1 l2 _
    cases e1 <;> cases e2 <;> simp only [EventAgree] at hag
    · subst hag
      simp only [runEvents, applyEvent]
      rw [ih]
    · obtain ⟨hx, hz⟩ := hag
      simp only [runEvents, applyEvent]
      rw [velCallback_agree s _ _ hx hz, ih]
    · subst hag
      simp only [runEvents, applyEvent]
      rw [ih]
    · subst hag
      simp only [runEvents, applyEvent]
      rw [ih]

/-- Witness for `C10_ignored_fields`: two velocity messages differing in all
four ignored components, followed by a tick. -/
theorem C10_witness :
    List.Forall₂ EventAgree [Event.vel ⟨1, 2, 3, 4, 5, 6⟩, Event.tick 1]
      [Event.vel ⟨1, 7, 8, 9, 10, 6⟩, Event.tick 1] ∧
    runEvents pVel (initState 0 0 0) [Event.vel ⟨1, 2, 3, 4, 5, 6⟩, Event.tick 1]
      = runEvents pVel (initState 0 0 0) [Event.vel ⟨1, 7, 8, 9, 10, 6⟩, Event.tick 1] := by
  have hag : List.Forall₂ EventAgree [Event.vel ⟨1, 2, 3, 4, 5, 6⟩, Event.tick 1]
      [Event.vel ⟨1, 7, 8, 9, 10, 6⟩, Event.tick 1] :=
    List.Forall₂.cons ⟨rfl, rfl⟩ (List.Forall₂.cons rfl List.Forall₂.nil)
  exact ⟨hag, C10_ignored_fields pVel (initState 0 0 0) _ _ hag⟩


/-! ### C4: the index invariant -/

theorem tick_targets (p : Params) (s : State) (t : ℝ) :
    ((OnUpdate p s t).1.targetPoses = s.targetPoses ∧ (OnUpdate p s t).1.idx = s.idx) ∨
    ((OnUpdate p s t).1.targetPoses = [] ∧ (OnUpdate p s t).1.idx = 0) ∨
    ((OnUpdate p s t).1.targetPoses = s.targetPoses ∧ (OnUpdate p s t).1.idx = s.idx + 1 ∧
      s.idx < s.targetPoses.length - 1 ∧ s.targetPoses ≠ []) := by
  have hmv : ∀ (s1 : State) (pos2 : ℝ × ℝ) (anim : String),
      (pathMove p s1 pos2 anim t).1.targetPoses = s1.targetPoses ∧
      (pathMove p s1 pos2 anim t).1.idx = s1.idx := by
    intro s1 pos2 anim
    simp only [pathMove]
    split <;> simp [tickFinish]
  unfold OnUpdate
  split
  · by_cases h1 : s.abort = true ∨ s.targetPoses = []
    · rw [pathSelect_abort p s h1]
      right; left
      obtain ⟨m1, m2⟩ := hmv (abortBranch s) (0, 0) "walking"
      exact ⟨m1.trans rfl, m2.trans rfl⟩
    · push_neg at h1
      have ha : s.abort = false := by simpa using h1.1
      by_cases h3 : distToTarget s < p.linTolerance
      · by_cases h4 : s.idx < s.targetPoses.length - 1
        · rw [pathSelect_advance p s ha h1.2 h3 h4]
          right; right
          obtain ⟨m1, m2⟩ := hmv (ChooseNewTarget s) _ "walking"
          exact ⟨m1.trans rfl, m2.trans rfl, h4, h1.2⟩
        · rw [pathSelect_done p s ha h1.2 h3 h4]
          left
          exact hmv s (0, 0) "standing"
      · rw [pathSelect_far p s ha h1.2 h3]
        left
        exact hmv s (targetDisp s) "walking"
  · split
    · left
      simp only [velTick]
      cases hq : s.cmdQueue <;> simp [tickFinish, hq]
    · left
      simp [tickFinish]

theorem reachable_idx_inv (p : Params) {s : State} (h : Reachable p s) :
    s.targetPoses ≠ [] → s.idx < s.targetPoses.length := by
  induction h with
  | init x y yaw =>
    intro _
    simp [initState]
  | tick t hr ih =>
    rename_i s0
    rcases tick_targets p s0 t with ⟨h1, h2⟩ | ⟨h1, h2⟩ | ⟨h1, h2, h3, h4⟩
    · intro hne
      rw [h1, h2]
      exact ih (h1 ▸ hne)
    · intro hne
      exact absurd h1 hne
    · intro _
      rw [h1, h2]
      have hlen : 0 < s0.targetPoses.length := List.length_pos.mpr h4
      omega
  | vel m hr ih =>
    intro hne
    exact ih hne
  | pathMsg ps hr ih =>
    intro hne
    simp only [PathCallback] at hne ⊢
    exact List.length_pos.mpr hne
  | abortSig b hr ih =>
    intro hne
    exact ih hne

/-- C4 (confirmed): on every reachable state the target index is in bounds
whenever the waypoint list is nonempty; the single list access of a tick
(`ChooseNewTarget`, guarded by `idx < size - 1`) is in bounds; and when the
flag is set or the list is empty the tick takes the hold-current-position
branch (clears the list, snaps the target to the current position, resets the
index, holds the pose) instead of dereferencing the list. -/
theorem C4_index_safety (p : Params) (s : State) (h : Reachable p s) :
    (s.targetPoses ≠ [] → s.idx < s.targetPoses.length) ∧
    (s.targetPoses ≠ [] → s.idx < s.targetPoses.length - 1 →
      s.idx + 1 < s.targetPoses.length) ∧
    (p.followMode = "path" → s.abort = true ∨ s.targetPoses = [] → ∀ t : ℝ,
      (OnUpdate p s t).1.posX = s.posX ∧ (OnUpdate p s t).1.posY = s.posY ∧
      (OnUpdate p s t).1.targetPoses = [] ∧ (OnUpdate p s t).1.idx = 0 ∧
      (OnUpdate p s t).1.targetPose = (s.posX, s.posY, s.targetPose.2.2)) := by
  refine ⟨reachable_idx_inv p h, ?_, ?_⟩
  · intro hne h4
    have hlen : 0 < s.targetPoses.length := List.length_pos.mpr hne
    omega
  · intro hm hae t
    obtain ⟨a1, a2, -, -, a5, a6, a7, -⟩ := tick_abort_hold p s t hm hae
    exact ⟨a1, a2, a5, a6, a7⟩

/-- Witness for `C4_index_safety` at the reachable `Reset` state. -/
theorem C4_witness :
    Reachable pPath (initState 0 0 0) ∧
    (((initState 0 0 0).targetPoses ≠ [] →
        (initState 0 0 0).idx < (initState 0 0 0).targetPoses.length) ∧
     ((initState 0 0 0).targetPoses ≠ [] →
        (initState 0 0 0).idx < (initState 0 0 0).targetPoses.length - 1 →
        (initState 0 0 0).idx + 1 < (initState 0 0 0).targetPoses.length) ∧
     (pPath.followMode = "path" →
        (initState 0 0 0).abort = true ∨ (initState 0 0 0).targetPoses = [] →
        ∀ t : ℝ,
        (OnUpdate pPath (initState 0 0 0) t).1.posX = (initState 0 0 0).posX ∧
        (OnUpdate pPath (initState 0 0 0) t).1.posY = (initState 0 0 0).posY ∧
        (OnUpdate pPath (initState 0 0 0) t).1.targetPoses = [] ∧
        (OnUpdate pPath (initState 0 0 0) t).1.idx = 0 ∧
        (OnUpdate pPath (initState 0 0 0) t).1.targetPose
          = ((initState 0 0 0).posX, (initState 0 0 0).posY,
             (initState 0 0 0).targetPose.2.2))) :=
  ⟨Reachable.init 0 0 0,
    C4_index_safety pPath (initState 0 0 0) (Reachable.init 0 0 0)⟩


/-! ### Ticks far from the target: turn-then-move gating -/

theorem OnUpdate_far (p : Params) (s : State) (t : ℝ) (hm : p.followMode = "path")
    (ha : s.abort = false) (hne : s.targetPoses ≠ [])
    (hfar : ¬ distToTarget s < p.linTolerance) :
    OnUpdate p s t = pathMove p s (targetDisp s) "walking" t := by
  rw [OnUpdate_path p s t hm, pathSelect_far p s ha hne hfar]

theorem tick_far_rotate (p : Params) (s : State) (t : ℝ) (hm : p.followMode = "path")
    (ha : s.abort = false) (hne : s.targetPoses ≠ [])
    (hfar : ¬ distToTarget s < p.linTolerance)
    (hb : |angularError p (normalizeUnit (targetDisp s)) (normalizeAngle s.yaw)|
      > p.angTolerance) :
    (OnUpdate p s t).1.posX = s.posX ∧ (OnUpdate p s t).1.posY = s.posY ∧
    (OnUpdate p s t).1.targetPose = s.targetPose ∧
    (OnUpdate p s t).1.yaw = normalizeAngle s.yaw +
      (if angularError p (normalizeUnit (targetDisp s)) (normalizeAngle s.yaw) < 0
        then (-1 : ℝ) else 1) * p.angVelocity * (t - s.lastUpdate) := by
  rw [OnUpdate_far p s t hm ha hne hfar, pathMove_rotate _ _ _ _ _ hb]
  simp [tickFinish]

theorem tick_far_translate (p : Params) (s : State) (t : ℝ) (hm : p.followMode = "path")
    (ha : s.abort = false) (hne : s.targetPoses ≠ [])
    (hfar : ¬ distToTarget s < p.linTolerance)
    (hb : ¬ |angularError p (normalizeUnit (targetDisp s)) (normalizeAngle s.yaw)|
      > p.angTolerance) :
    (OnUpdate p s t).1.posX
      = s.posX + (normalizeUnit (targetDisp s)).1 * p.linVelocity * (t - s.lastUpdate) ∧
    (OnUpdate p s t).1.posY
      = s.posY + (normalizeUnit (targetDisp s)).2 * p.linVelocity * (t - s.lastUpdate) ∧
    (OnUpdate p s t).1.targetPose = s.targetPose ∧
    (OnUpdate p s t).1.yaw = normalizeAngle s.yaw +
      angularError p (normalizeUnit (targetDisp s)) (normalizeAngle s.yaw) := by
  rw [OnUpdate_far p s t hm ha hne hfar, pathMove_translate _ _ _ _ _ hb]
  simp [tickFinish]

theorem vlen_axis (a : ℝ) : vlen (a, 0) = |a| := by
  unfold vlen
  norm_num
  exact Real.sqrt_sq_eq_abs a

theorem atan2_normalizeUnit {v : ℝ × ℝ} (h : vlen v ≠ 0) :
    atan2 (normalizeUnit v).2 (normalizeUnit v).1 = atan2 v.2 v.1 := by
  rw [normalizeUnit_of_ne h]
  unfold atan2
  have hL : 0 < vlen v := (vlen_nonneg v).lt_of_ne (Ne.symm h)
  have key : (⟨v.1 / vlen v, v.2 / vlen v⟩ : ℂ)
      = (((vlen v)⁻¹ : ℝ) : ℂ) * ⟨v.1, v.2⟩ := by
    rw [Complex.mk_eq_add_mul_I, Complex.mk_eq_add_mul_I, div_eq_inv_mul, div_eq_inv_mul]
    push_cast
    ring
  rw [key, Complex.arg_real_mul _ (inv_pos.mpr hL)]

/-- C3 (confirmed; "heading" is the logical heading `yaw - default_rotation`
that the odometry reports, and "snaps exactly to the bearing" holds as an
equality of angles, i.e. up to an integer multiple of `2π`): in a far path
tick, if the angular error exceeds the tolerance the tick holds position and
turns by signed angular velocity times dt; otherwise, with nonzero distance
and dt, it translates by `linear_velocity * dt` along the unit heading
vector, moves strictly, and snaps the heading to the bearing of the target. -/
theorem C3_turn_then_move (p : Params) (s : State) (t : ℝ)
    (hm : p.followMode = "path") (ha : s.abort = false) (hne : s.targetPoses ≠ [])
    (hfar : ¬ distToTarget s < p.linTolerance) (hd : distToTarget s ≠ 0) :
    (|angularError p (normalizeUnit (targetDisp s)) (normalizeAngle s.yaw)|
        > p.angTolerance →
      (OnUpdate p s t).1.posX = s.posX ∧ (OnUpdate p s t).1.posY = s.posY ∧
      (OnUpdate p s t).1.yaw = normalizeAngle s.yaw +
        (if angularError p (normalizeUnit (targetDisp s)) (normalizeAngle s.yaw) < 0
          then (-1 : ℝ) else 1) * p.angVelocity * (t - s.lastUpdate)) ∧
    (¬ |angularError p (normalizeUnit (targetDisp s)) (normalizeAngle s.yaw)|
        > p.angTolerance →
      (OnUpdate p s t).1.posX
        = s.posX + (normalizeUnit (targetDisp s)).1 * p.linVelocity * (t - s.lastUpdate) ∧
      (OnUpdate p s t).1.posY
        = s.posY + (normalizeUnit (targetDisp s)).2 * p.linVelocity * (t - s.lastUpdate) ∧
      (t - s.lastUpdate ≠ 0 → p.linVelocity ≠ 0 →
        ((OnUpdate p s t).1.posX, (OnUpdate p s t).1.posY) ≠ (s.posX, s.posY)) ∧
      (∃ k : ℤ, (OnUpdate p s t).1.yaw - p.defaultRotation
        = atan2 (targetDisp s).2 (targetDisp s).1 + 2 * Real.pi * k)) := by
  constructor
  · intro hb
    obtain ⟨e1, e2, -, e4⟩ := tick_far_rotate p s t hm ha hne hfar hb
    exact ⟨e1, e2, e4⟩
  · intro hb
    obtain ⟨e1, e2, -, e4⟩ := tick_far_translate p s t hm ha hne hfar hb
    refine ⟨e1, e2, ?_, ?_⟩
    · intro hdt hlv hcontra
      have hx : (OnUpdate p s t).1.posX = s.posX := congrArg Prod.fst hcontra
      have hy : (OnUpdate p s t).1.posY = s.posY := congrArg Prod.snd hcontra
      rw [e1] at hx
      rw [e2] at hy
      have hu1 : (normalizeUnit (targetDisp s)).1 = 0 := by
        have h0 : (normalizeUnit (targetDisp s)).1 * p.linVelocity * (t - s.lastUpdate)
            = 0 := by linarith
        rcases mul_eq_zero.mp h0 with h' | h'
        · rcases mul_eq_zero.mp h' with h'' | h''
          · exact h''
          · exact absurd h'' hlv
        · exact absurd h' hdt
      have hu2 : (normalizeUnit (targetDisp s)).2 = 0 := by
        have h0 : (normalizeUnit (targetDisp s)).2 * p.linVelocity * (t - s.lastUpdate)
            = 0 := by linarith
        rcases mul_eq_zero.mp h0 with h' | h'
        · rcases mul_eq_zero.mp h' with h'' | h''
          · exact h''
          · exact absurd h'' hlv
        · exact absurd h' hdt
      have hlen : vlen (normalizeUnit (targetDisp s)) = 0 := by
        unfold vlen
        rw [hu1, hu2]
        norm_num
      rw [vlen_normalizeUnit hd] at hlen
      norm_num at hlen
    · have hlu : vlen (normalizeUnit (targetDisp s)) ≠ 0 := by
        rw [vlen_normalizeUnit hd]
        norm_num
      have herr : angularError p (normalizeUnit (targetDisp s)) (normalizeAngle s.yaw)
          = normalizeAngle (atan2 (normalizeUnit (targetDisp s)).2
              (normalizeUnit (targetDisp s)).1 + p.defaultRotation
              - normalizeAngle s.yaw) := by
        unfold angularError
        rw [if_pos hlu]
      obtain ⟨k, hk⟩ := normalizeAngle_sub_self
        (atan2 (normalizeUnit (targetDisp s)).2 (normalizeUnit (targetDisp s)).1
          + p.defaultRotation - normalizeAngle s.yaw)
      refine ⟨k, ?_⟩
      rw [e4, herr, hk, atan2_normalizeUnit hd]
      ring

/-- Witness for `C3_turn_then_move`: target on the `+x` axis, heading 0. -/
theorem C3_witness :
    pPath.followMode = "path" ∧ sAligned.abort = false ∧
    sAligned.targetPoses ≠ [] ∧ ¬ distToTarget sAligned < pPath.linTolerance ∧
    distToTarget sAligned ≠ 0 ∧
    ((|angularError pPath (normalizeUnit (targetDisp sAligned))
        (normalizeAngle sAligned.yaw)| > pPath.angTolerance →
      (OnUpdate pPath sAligned 1).1.posX = sAligned.posX ∧
      (OnUpdate pPath sAligned 1).1.posY = sAligned.posY ∧
      (OnUpdate pPath sAligned 1).1.yaw = normalizeAngle sAligned.yaw +
        (if angularError pPath (normalizeUnit (targetDisp sAligned))
            (normalizeAngle sAligned.yaw) < 0
          then (-1 : ℝ) else 1) * pPath.angVelocity * (1 - sAligned.lastUpdate)) ∧
    (¬ |angularError pPath (normalizeUnit (targetDisp sAligned))
        (normalizeAngle sAligned.yaw)| > pPath.angTolerance →
      (OnUpdate pPath sAligned 1).1.posX
        = sAligned.posX + (normalizeUnit (targetDisp sAligned)).1 * pPath.linVelocity
            * (1 - sAligned.lastUpdate) ∧
      (OnUpdate pPath sAligned 1).1.posY
        = sAligned.posY + (normalizeUnit (targetDisp sAligned)).2 * pPath.linVelocity
            * (1 - sAligned.lastUpdate) ∧
      ((1 : ℝ) - sAligned.lastUpdate ≠ 0 → pPath.linVelocity ≠ 0 →
        ((OnUpdate pPath sAligned 1).1.posX, (OnUpdate pPath sAligned 1).1.posY)
          ≠ (sAligned.posX, sAligned.posY)) ∧
      (∃ k : ℤ, (OnUpdate pPath sAligned 1).1.yaw - pPath.defaultRotation
        = atan2 (targetDisp sAligned).2 (targetDisp sAligned).1 + 2 * Real.pi * k))) := by
  have hdisp : targetDisp sAligned = ((5 : ℝ), (0 : ℝ)) := by
    simp [targetDisp, sAligned, initState]
  have hdist : distToTarget sAligned = 5 := by
    rw [distToTarget, hdisp, vlen_axis]
    norm_num
  refine ⟨rfl, rfl, ?_, ?_, ?_, ?_⟩
  · simp [sAligned, initState]
  · rw [hdist]
    norm_num [pPath]
  · rw [hdist]
    norm_num
  · exact C3_turn_then_move pPath sAligned 1 rfl rfl (by simp [sAligned, initState])
      (by rw [hdist]; norm_num [pPath]) (by rw [hdist]; norm_num)


/-! ### C7: evolution of the distance to the current target -/

theorem dist_after_translate (d : ℝ × ℝ) (c : ℝ) (h : vlen d ≠ 0) :
    vlen (d.1 - d.1 / vlen d * c, d.2 - d.2 / vlen d * c) = |vlen d - c| := by
  have hL : 0 < vlen d := (vlen_nonneg d).lt_of_ne (Ne.symm h)
  have h1 : d.1 - d.1 / vlen d * c = (vlen d - c) / vlen d * d.1 := by
    field_simp
    ring
  have h2 : d.2 - d.2 / vlen d * c = (vlen d - c) / vlen d * d.2 := by
    field_simp
    ring
  have he : vlen (d.1, d.2) = vlen d := rfl
  rw [h1, h2, vlen_smul, he, abs_div, abs_of_pos hL,
    div_mul_cancel₀ _ (ne_of_gt hL)]

theorem tick_far_translate_dist (p : Params) (s : State) (t : ℝ)
    (hm : p.followMode = "path") (ha : s.abort = false) (hne : s.targetPoses ≠ [])
    (hfar : ¬ distToTarget s < p.linTolerance) (hd : distToTarget s ≠ 0)
    (hb : ¬ |angularError p (normalizeUnit (targetDisp s)) (normalizeAngle s.yaw)|
      > p.angTolerance) :
    distToTarget (OnUpdate p s t).1
      = |distToTarget s - p.linVelocity * (t - s.lastUpdate)| := by
  obtain ⟨e1, e2, e3, -⟩ := tick_far_translate p s t hm ha hne hfar hb
  have hu := normalizeUnit_of_ne (v := targetDisp s) hd
  have key : targetDisp (OnUpdate p s t).1
      = ((targetDisp s).1 - (targetDisp s).1 / vlen (targetDisp s)
            * (p.linVelocity * (t - s.lastUpdate)),
         (targetDisp s).2 - (targetDisp s).2 / vlen (targetDisp s)
            * (p.linVelocity * (t - s.lastUpdate))) := by
    unfold targetDisp
    rw [e1, e2, e3, hu]
    simp only [targetDisp, Prod.mk.injEq]
    constructor <;> ring
  show vlen (targetDisp (OnUpdate p s t).1) = _
  rw [key]
  exact dist_after_translate (targetDisp s) (p.linVelocity * (t - s.lastUpdate)) hd

/-- C7 (amended): for a non-aborted Path-Following tick with a nonempty list
whose distance D to the current target is at least the linear tolerance (so
the target is not switched) and nonzero: a rotation-gated tick holds D
exactly (even though D is outside the tolerance); a translating tick moves it
to |D − linear_velocity·dt|, which is a strict decrease exactly when
0 < linear_velocity·dt < 2·D (it can overshoot and grow otherwise). -/
theorem C7_distance_step (p : Params) (s : State) (t : ℝ)
    (hm : p.followMode = "path") (ha : s.abort = false) (hne : s.targetPoses ≠ [])
    (hfar : ¬ distToTarget s < p.linTolerance) (hd : distToTarget s ≠ 0) :
    (|angularError p (normalizeUnit (targetDisp s)) (normalizeAngle s.yaw)|
        > p.angTolerance →
      distToTarget (OnUpdate p s t).1 = distToTarget s) ∧
    (¬ |angularError p (normalizeUnit (targetDisp s)) (normalizeAngle s.yaw)|
        > p.angTolerance →
      distToTarget (OnUpdate p s t).1
        = |distToTarget s - p.linVelocity * (t - s.lastUpdate)|) ∧
    (¬ |angularError p (normalizeUnit (targetDisp s)) (normalizeAngle s.yaw)|
        > p.angTolerance →
      0 < p.linVelocity * (t - s.lastUpdate) →
      p.linVelocity * (t - s.lastUpdate) < 2 * distToTarget s →
      distToTarget (OnUpdate p s t).1 < distToTarget s) := by
  refine ⟨?_, ?_, ?_⟩
  · intro hb
    obtain ⟨e1, e2, e3, -⟩ := tick_far_rotate p s t hm ha hne hfar hb
    show vlen (targetDisp (OnUpdate p s t).1) = vlen (targetDisp s)
    unfold targetDisp
    rw [e1, e2, e3]
  · intro hb
    exact tick_far_translate_dist p s t hm ha hne hfar hd hb
  · intro hb h1 h2
    rw [tick_far_translate_dist p s t hm ha hne hfar hd hb]
    have hL : 0 < distToTarget s := (vlen_nonneg _).lt_of_ne (Ne.symm hd)
    exact abs_lt.mpr ⟨by linarith, by linarith⟩

theorem distToTarget_sTurn : distToTarget sTurn = 10 := by
  have hdisp : targetDisp sTurn = ((10 : ℝ), (0 : ℝ)) := by
    simp [targetDisp, sTurn, initState]
  rw [distToTarget, hdisp, vlen_axis]
  norm_num

theorem sTurn_targets_ne : sTurn.targetPoses ≠ [] := by
  simp [sTurn]

theorem sTurn_angularError :
    angularError pPath (normalizeUnit (targetDisp sTurn)) (normalizeAngle sTurn.yaw)
      = -(Real.pi / 2) := by
  have hdisp : targetDisp sTurn = ((10 : ℝ), (0 : ℝ)) := by
    simp [targetDisp, sTurn, initState]
  have hv : vlen ((10 : ℝ), (0 : ℝ)) = 10 := by
    rw [vlen_axis]
    norm_num
  have hu : normalizeUnit ((10 : ℝ), (0 : ℝ)) = (1, 0) := by
    rw [normalizeUnit_of_ne (by rw [hv]; norm_num), hv]
    norm_num
  have hyaw : normalizeAngle sTurn.yaw = Real.pi / 2 := by
    have h0 : sTurn.yaw = Real.pi / 2 := rfl
    rw [h0]
    exact normalizeAngle_eq_self
      ⟨by linarith [Real.pi_pos], by linarith [Real.pi_pos]⟩
  rw [hdisp, hu, hyaw]
  unfold angularError
  rw [if_pos (by rw [show ((1 : ℝ), (0 : ℝ)) = ((1 : ℝ), (0 : ℝ)) from rfl, vlen_axis]; norm_num)]
  have hq : atan2 ((1 : ℝ), (0 : ℝ)).2 ((1 : ℝ), (0 : ℝ)).1 = 0 := by
    have h1 : ((1 : ℝ), (0 : ℝ)).2 = (0 : ℝ) := rfl
    have h2 : ((1 : ℝ), (0 : ℝ)).1 = (1 : ℝ) := rfl
    rw [h1, h2]
    exact atan2_zero_of_nonneg zero_le_one
  rw [hq]
  have hδ : pPath.defaultRotation = 0 := rfl
  rw [hδ]
  have harg : (0 : ℝ) + 0 - Real.pi / 2 = -(Real.pi / 2) := by ring
  rw [harg]
  exact normalizeAngle_eq_self
    ⟨by linarith [Real.pi_pos], by linarith [Real.pi_pos]⟩

/-- C7, claim as stated is false: a rotation-gated tick holds the distance to
the target (here 10) even though it is far outside the linear tolerance, so
the tick neither strictly decreases the distance nor holds it "only once it
is already within linear_tolerance". -/
theorem C7_counterexample :
    distToTarget (OnUpdate pPath sTurn 1).1 = distToTarget sTurn ∧
    distToTarget sTurn = 10 ∧
    ¬ distToTarget sTurn < pPath.linTolerance := by
  have hb : |angularError pPath (normalizeUnit (targetDisp sTurn))
      (normalizeAngle sTurn.yaw)| > pPath.angTolerance := by
    rw [sTurn_angularError, abs_neg, abs_of_pos (by positivity)]
    have h3 := Real.pi_gt_three
    have ht : pPath.angTolerance = 1 := rfl
    rw [ht]
    linarith
  have hfar : ¬ distToTarget sTurn < pPath.linTolerance := by
    rw [distToTarget_sTurn]
    have ht : pPath.linTolerance = 0.1 := rfl
    rw [ht]
    norm_num
  obtain ⟨e1, e2, e3, -⟩ :=
    tick_far_rotate pPath sTurn 1 rfl rfl sTurn_targets_ne hfar hb
  refine ⟨?_, distToTarget_sTurn, hfar⟩
  show vlen (targetDisp (OnUpdate pPath sTurn 1).1) = vlen (targetDisp sTurn)
  unfold targetDisp
  rw [e1, e2, e3]

/-- Witness for `C7_distance_step` at the far, misaligned state. -/
theorem C7_witness :
    pPath.followMode = "path" ∧ sTurn.abort = false ∧ sTurn.targetPoses ≠ [] ∧
    ¬ distToTarget sTurn < pPath.linTolerance ∧ distToTarget sTurn ≠ 0 ∧
    ((|angularError pPath (normalizeUnit (targetDisp sTurn))
        (normalizeAngle sTurn.yaw)| > pPath.angTolerance →
      distToTarget (OnUpdate pPath sTurn 1).1 = distToTarget sTurn) ∧
    (¬ |angularError pPath (normalizeUnit (targetDisp sTurn))
        (normalizeAngle sTurn.yaw)| > pPath.angTolerance →
      distToTarget (OnUpdate pPath sTurn 1).1
        = |distToTarget sTurn - pPath.linVelocity * (1 - sTurn.lastUpdate)|) ∧
    (¬ |angularError pPath (normalizeUnit (targetDisp sTurn))
        (normalizeAngle sTurn.yaw)| > pPath.angTolerance →
      0 < pPath.linVelocity * (1 - sTurn.lastUpdate) →
      pPath.linVelocity * (1 - sTurn.lastUpdate) < 2 * distToTarget sTurn →
      distToTarget (OnUpdate pPath sTurn 1).1 < distToTarget sTurn)) := by
  have hfar : ¬ distToTarget sTurn < pPath.linTolerance := by
    rw [distToTarget_sTurn]
    have ht : pPath.linTolerance = 0.1 := rfl
    rw [ht]
    norm_num
  have hd : distToTarget sTurn ≠ 0 := by
    rw [distToTarget_sTurn]
    norm_num
  exact ⟨rfl, rfl, sTurn_targets_ne, hfar, hd,
    C7_distance_step pPath sTurn 1 rfl rfl sTurn_targets_ne hfar hd⟩


/-! ### C8: the velocity-mode round trip -/

theorem velTick_held (p : Params) (s : State) (t : ℝ)
    (hm : p.followMode = "velocity") (hq : s.cmdQueue = [])
    (hv : s.targetVelLin = 1) (hw : s.targetVelAng = 0) :
    (OnUpdate p s t).1.posX
      = s.posX + Real.cos (normalizeAngle s.yaw - p.defaultRotation)
          * (t - s.lastUpdate) ∧
    (OnUpdate p s t).1.posY
      = s.posY + Real.sin (normalizeAngle s.yaw - p.defaultRotation)
          * (t - s.lastUpdate) ∧
    (OnUpdate p s t).1.yaw = normalizeAngle s.yaw ∧
    (OnUpdate p s t).1.cmdQueue = [] ∧ (OnUpdate p s t).1.targetVelLin = 1 ∧
    (OnUpdate p s t).1.targetVelAng = 0 ∧ (OnUpdate p s t).1.lastUpdate = t := by
  rw [OnUpdate_velocity p s t hm]
  simp only [velTick]
  rw [hq]
  simp [tickFinish, hq, hv, hw, normalizeAngle_zero, mul_comm]

theorem runTicks_held (p : Params) (ts : List ℝ) : ∀ s : State,
    p.followMode = "velocity" → s.cmdQueue = [] → s.targetVelLin = 1 →
    s.targetVelAng = 0 →
    (runTicks p s ts).posX = s.posX +
        ((runTicks p s ts).lastUpdate - s.lastUpdate) *
          Real.cos (normalizeAngle s.yaw - p.defaultRotation) ∧
    (runTicks p s ts).posY = s.posY +
        ((runTicks p s ts).lastUpdate - s.lastUpdate) *
          Real.sin (normalizeAngle s.yaw - p.defaultRotation) := by
  induction ts with
  | nil =>
    intro s _ _ _ _
    rw [runTicks_nil]
    constructor <;> ring
  | cons t ts ih =>
    intro s hm hq hv hw
    obtain ⟨e1, e2, e3, e4, e5, e6, e7⟩ := velTick_held p s t hm hq hv hw
    obtain ⟨g1, g2⟩ := ih (OnUpdate p s t).1 hm e4 e5 e6
    rw [runTicks_cons]
    rw [e3, normalizeAngle_idem] at g1 g2
    constructor
    · rw [g1, e1, e7]
      ring
    · rw [g2, e2, e7]
      ring

/-- C8 (confirmed): with mode "velocity", an empty command queue and the held
command (v = 1, ω = 0), any sequence of ticks advances the position by exactly
`1 · T` along the heading the odometry reports (`normalizeAngle yaw −
default_rotation`), where `T` is the total elapsed simulated time; this holds
for every choice of the default rotation offset, which cancels between the
integration and the odometry readout. -/
theorem C8_velocity_roundtrip (p : Params) (s : State) (ts : List ℝ)
    (hm : p.followMode = "velocity") (hq : s.cmdQueue = [])
    (hv : s.targetVelLin = 1) (hw : s.targetVelAng = 0) :
    (runTicks p s ts).posX = s.posX +
        ((runTicks p s ts).lastUpdate - s.lastUpdate) *
          Real.cos (normalizeAngle s.yaw - p.defaultRotation) ∧
    (runTicks p s ts).posY = s.posY +
        ((runTicks p s ts).lastUpdate - s.lastUpdate) *
          Real.sin (normalizeAngle s.yaw - p.defaultRotation) ∧
    (∀ u : ℝ, (OnUpdate p s u).2.orientYaw
        = normalizeAngle s.yaw - p.defaultRotation) := by
  obtain ⟨g1, g2⟩ := runTicks_held p ts s hm hq hv hw
  exact ⟨g1, g2, fun u => (odomOldPose p s u).2.2⟩

/-- Witness for `C8_velocity_roundtrip`: two ticks of the held unit command. -/
theorem C8_witness :
    pVel.followMode = "velocity" ∧ sVel.cmdQueue = [] ∧ sVel.targetVelLin = 1 ∧
    sVel.targetVelAng = 0 ∧
    ((runTicks pVel sVel [1, 2]).posX = sVel.posX +
        ((runTicks pVel sVel [1, 2]).lastUpdate - sVel.lastUpdate) *
          Real.cos (normalizeAngle sVel.yaw - pVel.defaultRotation) ∧
     (runTicks pVel sVel [1, 2]).posY = sVel.posY +
        ((runTicks pVel sVel [1, 2]).lastUpdate - sVel.lastUpdate) *
          Real.sin (normalizeAngle sVel.yaw - pVel.defaultRotation) ∧
     (∀ u : ℝ, (OnUpdate pVel sVel u).2.orientYaw
        = normalizeAngle sVel.yaw - pVel.defaultRotation)) :=
  ⟨rfl, rfl, rfl, rfl, C8_velocity_roundtrip pVel sVel [1, 2] rfl rfl rfl rfl⟩

end ActorCmd
